import Mathlib

/-!
Verification development for `configured_mail_sender` (file
`configured_mail_sender/mail_sender.py`): a shallow embedding of the
credential store (`MailSender.__init__`, `MailSender._read_creds_file`,
`MailSender._update_creds`) and of the protocol resolver / sender
factory (`mail_sender`), together with theorems about their behavior.

Modelling conventions:
- YAML values are modelled by the inductive `Yaml`; Python dicts are
  insertion-ordered association lists (`List (String × Yaml)`).
- The credential file on disk is `FS := Option FileContent`: `none`
  means the file does not exist; `some (.parsed y)` is a file whose
  text parses (by `yaml.load`) to the value `y`; `some .garbage` is a
  file whose text fails YAML parsing.
- Python exceptions are modelled by `PyErr`.  The subsystem's own
  typed exceptions (`MailSenderException` and its subclass
  `MailSenderUnsupportedException`) are the constructors `mailSender`
  and `mailSenderUnsupported`, carrying the wrapped lower-level error
  (the `e` passed as first constructor argument in the source, when
  present) and the message; any other Python exception escaping
  uncaught is `PyErr.raw`.
- The `with self.cred_locker` critical sections are serialized by the
  interprocess file lock, so each lock-protected operation is modelled
  as one atomic transition on `FS`.
- I/O faults of `os.open`/`os.write` during `_update_creds` are
  injected through the `WriteFault` parameter; `WriteFault.noFault` is
  fault-free execution.
-/

/-- YAML values as produced by `yaml.load` / consumed by `yaml.safe_dump`:
null, booleans, naturals, strings and (insertion-ordered) mappings. -/
inductive Yaml where
  | null : Yaml
  | bool (b : Bool) : Yaml
  | nat (n : Nat) : Yaml
  | str (s : String) : Yaml
  | map (entries : List (String × Yaml)) : Yaml

/-- Python truthiness of a `Yaml` value (`if not x` tests): `None`, `False`,
`0`, `""` and `{}` are falsy, everything else is truthy. -/
def Yaml.truthy : Yaml → Bool
  | .null => false
  | .bool b => b
  | .nat n => n != 0
  | .str s => !s.isEmpty
  | .map m => !m.isEmpty

/-- Lookup in a Python dict modelled as an association list (first match). -/
def alistGet (m : List (String × Yaml)) (k : String) : Option Yaml :=
  match m with
  | [] => none
  | (k', v) :: rest => if k' = k then some v else alistGet rest k

/-- Assignment `d[k] = v` on a Python dict modelled as an association list:
replace the value in place when the key is present, append otherwise. -/
def alistSet (m : List (String × Yaml)) (k : String) (v : Yaml) :
    List (String × Yaml) :=
  match m with
  | [] => [(k, v)]
  | (k', v') :: rest =>
      if k' = k then (k, v) :: rest else (k', v') :: alistSet rest k v

/-- Core of Python `str.split(sep, maxsplit)` on the character list: split on
`sep` at most `maxsplit` times, keeping the remainder whole. -/
def pySplitChars (sep : Char) : Nat → List Char → List (List Char)
  | _, [] => [[]]
  | maxsplit, c :: cs =>
      match maxsplit with
      | 0 => [c :: cs]
      | Nat.succ m =>
          if c = sep then [] :: pySplitChars sep m cs
          else
            match pySplitChars sep (Nat.succ m) cs with
            | h :: t => (c :: h) :: t
            | [] => [[c]]

/-- Python `s.split(sep, maxsplit)` for a single-character separator. -/
def pySplit (sep : Char) (maxsplit : Nat) (s : String) : List String :=
  (pySplitChars sep maxsplit s.data).map String.mk

/-- Content of an existing on-disk credential file: either text that YAML
parsing turns into the value `y`, or text on which `yaml.load` raises. -/
inductive FileContent where
  | parsed (y : Yaml) : FileContent
  | garbage : FileContent

/-- State of the credential file path on disk (`none` when absent). -/
def FS := Option FileContent

/-- Low-level Python errors that can be raised by libraries and builtins:
`ValueError` (tuple unpacking), `TypeError` (item assignment on a non-dict),
`AttributeError` (missing `.get`), a `yaml` parse error, an `IOError`,
`ModuleNotFoundError` and the `AttributeError` of a missing module symbol. -/
inductive PyRawErr where
  | valueError : PyRawErr
  | typeError : PyRawErr
  | attributeError : PyRawErr
  | yamlError : PyRawErr
  | ioError : PyRawErr
  | moduleNotFoundError (module_ : String) : PyRawErr
  | attributeErrorSym (module_ class_ : String) : PyRawErr
deriving DecidableEq

/-- Exceptions observable by a caller of this subsystem: the subsystem's own
`MailSenderException` (optionally wrapping a lower-level error, as when the
source raises `MailSenderException(e, msg)`), its subclass
`MailSenderUnsupportedException`, or a raw Python error escaping uncaught. -/
inductive PyErr where
  | mailSender (wrapped : Option PyRawErr) (msg : String) : PyErr
  | mailSenderUnsupported (wrapped : PyRawErr) (msg : String) : PyErr
  | raw (e : PyRawErr) : PyErr
deriving DecidableEq

/-- Whether an error is an instance of the subsystem's typed exception class
`MailSenderException` (the subclass included) — the code-level realization of
the spec's error taxonomy — as opposed to an untyped escaping Python error. -/
def PyErr.isMailSenderException : PyErr → Bool
  | .mailSender _ _ => true
  | .mailSenderUnsupported _ _ => true
  | .raw _ => false

/-- Runtime state of a `MailSender` object: the fields of the abstract class
that the credential store uses (`sender`, `user_cred_file`,
`user_credentials`); `domain_spec` and `kwargs` play no role in the store. -/
structure MailSenderHandle where
  sender : String
  user_cred_file : String
  user_credentials : Yaml

/-- Embedding of `MailSender._read_creds_file` (mail_sender.py lines
102-117), one atomic step under `self.cred_locker`: return `{}` when the file
does not exist; otherwise parse it with `yaml.load` and return whatever value
that produces (a non-mapping included).  Only `IOError` while opening is
caught and wrapped into `MailSenderException` (`openFails` injects it); a
YAML parse error is not caught and escapes as the raw parser error. -/
def _read_creds_file (openFails : Bool) (user_cred_file : String) (fs : FS) :
    Except PyErr Yaml :=
  match fs with
  | none => .ok (.map [])
  | some content =>
      if openFails then
        .error (.mailSender (some .ioError) ("Error opening " ++ user_cred_file))
      else
        match content with
        | .parsed y => .ok y
        | .garbage => .error (.raw .yamlError)

/-- Embedding of the credential-loading part of `MailSender.__init__`
(mail_sender.py lines 87-92): read the creds file, take `.get(sender)` — an
`AttributeError` when the parsed value is not a dict — and replace a falsy
result by `{}`. -/
def mailSenderInit (sender user_cred_file : String) (fs : FS) :
    Except PyErr MailSenderHandle :=
  match _read_creds_file false user_cred_file fs with
  | .error e => .error e
  | .ok creds =>
      match creds with
      | .map m =>
          let uc := (alistGet m sender).getD Yaml.null
          .ok { sender := sender
                user_cred_file := user_cred_file
                user_credentials := if uc.truthy then uc else Yaml.map [] }
      | _ => .error (.raw .attributeError)

/-- Injected I/O fault for `_update_creds`: `openFail` makes `os.open` of the
temp file raise `IOError`; `writeFail` makes `os.write` raise. -/
inductive WriteFault where
  | noFault : WriteFault
  | openFail : WriteFault
  | writeFail : WriteFault
deriving DecidableEq

/-- Filesystem events performed by `_update_creds` on paths other than pure
reads: creating the temp file with a mode, writing its full content, closing
it, and `os.replace` of the temp file over the target. -/
inductive FsEvent where
  | openTemp (p : String) (mode : Nat) : FsEvent
  | writeTemp (content : Yaml) : FsEvent
  | closeTemp : FsEvent
  | replace (src dst : String) : FsEvent

/-- Outcome of one `_update_creds` call: the raised error (if any), the
resulting state of the target credential file, and the filesystem events
performed. -/
structure UpdateResult where
  result : Except PyErr Unit
  fs : FS
  events : List FsEvent

/-- Embedding of `MailSender._update_creds` (mail_sender.py lines 119-144),
one atomic step under `self.cred_locker`: re-read the on-disk mapping, assign
`current_creds[self.sender] = self.user_credentials` (a `TypeError` when the
parsed value is not a dict), then write the full new mapping to
`<file>.temp` opened with mode `0o600` and `os.replace` it over the target.
An `IOError` from `os.open` is caught by the outer handler and wrapped as
`MailSenderException(e, "Can't write ...")`; any error from `os.write` is
wrapped by the inner handler as `MailSenderException(e, "Problem writing new
credentials ...")` (with the temp file closed by `finally`).  The target
path itself is only ever touched by the final `os.replace`, so on every
error path its content is returned unchanged. -/
def _update_creds (wf : WriteFault) (h : MailSenderHandle) (fs : FS) :
    UpdateResult :=
  let temp_file := h.user_cred_file ++ ".temp"
  match _read_creds_file false h.user_cred_file fs with
  | .error e => { result := .error e, fs := fs, events := [] }
  | .ok current_creds =>
      match current_creds with
      | .map m =>
          let current' := alistSet m h.sender h.user_credentials
          match wf with
          | .openFail =>
              { result := .error (.mailSender (some .ioError)
                  ("Can\x27t write " ++ h.user_cred_file))
                fs := fs
                events := [] }
          | .writeFail =>
              { result := .error (.mailSender (some .ioError)
                  ("Problem writing new credentials " ++ temp_file))
                fs := fs
                events := [.openTemp temp_file 0o600, .closeTemp] }
          | .noFault =>
              { result := .ok ()
                fs := some (.parsed (.map current'))
                events := [.openTemp temp_file 0o600,
                           .writeTemp (.map current'),
                           .closeTemp,
                           .replace temp_file h.user_cred_file] }
      | _ => { result := .error (.raw .typeError), fs := fs, events := [] }

/-- Embedding of the credential-file path resolution in `MailSender.__init__`
(mail_sender.py lines 80-82): `kwargs.get('creds_file',
environ.get('MAILSENDER_CREDS', DEFAULT_CREDS_FILE))`.  The `creds_file`
keyword argument and the environment variable are `Option String`s; the
platform-dependent `DEFAULT_CREDS_FILE` is passed in as `default_creds_file`. -/
def resolveCredsFile (creds_file : Option String)
    (mailsender_creds_env : Option String) (default_creds_file : String) :
    String :=
  match creds_file with
  | some f => f
  | none =>
      match mailsender_creds_env with
      | some f => f
      | none => default_creds_file

/-- Outcome of the dynamic `module:Class` resolution performed in
`mail_sender` (mail_sender.py lines 216-219): the module import raises
`ModuleNotFoundError`, `getattr` raises `AttributeError`, or a `cls(...)`
instance is produced, which either is or is not an instance of `MailSender`. -/
inductive ResolveOutcome where
  | moduleNotFound : ResolveOutcome
  | attrNotFound : ResolveOutcome
  | inst (isMailSender : Bool) : ResolveOutcome
deriving DecidableEq

/-- Environment for dynamic imports: what `importlib.import_module` plus
`getattr` plus instantiation yields for a given `module_` and `class_`. -/
def ModuleEnv := String → String → ResolveOutcome

/-- Result of a successful `mail_sender` call: either the built-in
`smtp_sender.SMTPSender(sender, domain_spec=...)` (after `.open()`), or a
dynamically loaded `module_:class_` instance (after `.open()`); each carries
the `domain_spec` dict it was constructed with. -/
inductive SenderResult where
  | smtpSender (sender : String) (domain_spec : Yaml) : SenderResult
  | dynamicSender (module_ class_ sender : String) (domain_spec : Yaml) :
      SenderResult

/-- Embedding of the protocol dispatch of `mail_sender` (mail_sender.py
lines 192-227), after the domain spec has been found truthy: read
`protocol = domain_spec.get('protocol', 'smtp')` (an `AttributeError` when
the spec is a truthy non-dict); `'smtp'` selects the built-in SMTP sender; a
non-string protocol makes `':' in protocol` raise `TypeError`; a string
without `':'` raises `MailSenderException("No implementation specified
...")`; otherwise split on the first `':'` and resolve dynamically —
`ModuleNotFoundError`/`AttributeError` are caught and wrapped into
`MailSenderUnsupportedException`, while an instance failing the
`isinstance(inst, MailSender)` check raises a plain `MailSenderException`
that the `except (ModuleNotFoundError, AttributeError)` clause does not
catch. -/
def dispatchProtocol (env : ModuleEnv) (sender domain : String)
    (domain_spec : Yaml) : Except PyErr SenderResult :=
  match domain_spec with
  | .map sm =>
      let protocol := (alistGet sm "protocol").getD (Yaml.str "smtp")
      match protocol with
      | .str p =>
          if p = "smtp" then
            .ok (.smtpSender sender domain_spec)
          else if p.data.contains ':' then
            match pySplit ':' 1 p with
            | [module_, class_] =>
                match env module_ class_ with
                | .moduleNotFound =>
                    .error (.mailSenderUnsupported (.moduleNotFoundError module_)
                      (module_ ++ ":" ++ class_ ++ " for email domain " ++
                        domain ++ " unknown)"))
                | .attrNotFound =>
                    .error (.mailSenderUnsupported
                      (.attributeErrorSym module_ class_)
                      (module_ ++ ":" ++ class_ ++ " for email domain " ++
                        domain ++ " unknown)"))
                | .inst false =>
                    .error (.mailSender none
                      (module_ ++ ":" ++ class_ ++ " for " ++ domain ++
                        " is not a MailSender"))
                | .inst true =>
                    .ok (.dynamicSender module_ class_ sender domain_spec)
            | _ => .error (.raw .valueError)
          else
            .error (.mailSender none
              ("No implementation specified for domain " ++ domain))
      | _ => .error (.raw .typeError)
  | _ => .error (.raw .attributeError)

/-- Embedding of the factory `mail_sender` (mail_sender.py lines 163-227).
`load_config` is the external configuration-merge collaborator and is
modelled as returning the already-merged `domains_conf` table passed in.
An empty `sender` raises `MailSenderException('sender is required')`;
`sender.split('@', 2)` unpacked into `(addr, domain)` raises an untyped
`ValueError` unless it yields exactly two parts; a missing or falsy
`domains_conf.get(domain)` raises `MailSenderException("Domain ... isn't
recognized")`; the rest is `dispatchProtocol`. -/
def mail_sender (env : ModuleEnv) (sender : String)
    (domains_conf : List (String × Yaml)) : Except PyErr SenderResult :=
  if sender = "" then
    .error (.mailSender none "sender is required")
  else
    match pySplit '@' 2 sender with
    | [_addr, domain] =>
        match alistGet domains_conf domain with
        | none =>
            .error (.mailSender none
              ("Domain " ++ domain ++ " isn\x27t recognized"))
        | some domain_spec =>
            if domain_spec.truthy then
              dispatchProtocol env sender domain domain_spec
            else
              .error (.mailSender none
                ("Domain " ++ domain ++ " isn\x27t recognized"))
    | _ => .error (.raw .valueError)

/-- Stub dynamic-import environment in which no module resolves. -/
def stubEnv : ModuleEnv := fun _ _ => .moduleNotFound

/-- Assigning key `k` makes a later lookup of `k` return the new value. -/
theorem alistGet_alistSet_self (m : List (String × Yaml)) (k : String)
    (v : Yaml) : alistGet (alistSet m k v) k = some v := by
  induction m with
  | nil => simp [alistSet, alistGet]
  | cons kv rest ih =>
      obtain ⟨k', v'⟩ := kv
      by_cases hk : k' = k
      · simp [alistSet, alistGet, hk]
      · simp [alistSet, alistGet, hk, ih]

/-- Assigning key `k` leaves the lookup of any other key unchanged. -/
theorem alistGet_alistSet_ne (m : List (String × Yaml)) (k k' : String)
    (v : Yaml) (hne : k' ≠ k) :
    alistGet (alistSet m k v) k' = alistGet m k' := by
  induction m with
  | nil => simp [alistSet, alistGet, Ne.symm hne]
  | cons kv rest ih =>
      obtain ⟨k'', v''⟩ := kv
      by_cases hk : k'' = k
      · subst hk
        simp [alistSet, alistGet, Ne.symm hne]
      · simp [alistSet, alistGet, hk, ih]

/-- Appending a binding for an absent key makes its lookup return it. -/
theorem alistGet_append_self (m : List (String × Yaml)) (k : String)
    (v : Yaml) (h : alistGet m k = none) :
    alistGet (m ++ [(k, v)]) k = some v := by
  induction m with
  | nil => simp [alistGet]
  | cons kv rest ih =>
      obtain ⟨k', v'⟩ := kv
      by_cases hk : k' = k
      · simp [alistGet, hk] at h
      · simp only [alistGet, List.cons_append, if_neg hk] at h ⊢
        exact ih h

/-- Reading the credential file without an open fault does not depend on the
path (the path only enters the wrapped IOError message). -/
theorem read_creds_file_path_indep (p q : String) (fs : FS) :
    _read_creds_file false p fs = _read_creds_file false q fs := by
  cases fs <;> rfl

/-- C9: the credential file path used by a store handle is the first
available of: the explicit `creds_file` option, the `MAILSENDER_CREDS`
environment variable, and the default path — for every combination of
option present/absent and environment variable present/absent. -/
theorem creds_file_resolution_order (f g dflt : String) :
    resolveCredsFile (some f) (some g) dflt = f ∧
    resolveCredsFile (some f) none dflt = f ∧
    resolveCredsFile none (some g) dflt = g ∧
    resolveCredsFile none none dflt = dflt :=
  ⟨rfl, rfl, rfl, rfl⟩

/-- C3 counterexample: on a file whose content fails YAML parsing, the read
fails with the raw, uncaught parser error, which is not an instance of the
subsystem's typed exception class `MailSenderException` — i.e. not the
`StoreCorrupt` kind of the store's error taxonomy. -/
theorem read_unparsable_file_untyped_error :
    _read_creds_file false "creds.yml" (some .garbage) =
      .error (.raw .yamlError) ∧
    (PyErr.raw .yamlError).isMailSenderException = false :=
  ⟨rfl, rfl⟩

/-- C3 (amended): reading the credential store returns an empty mapping when
the file does not exist and the parsed value when it parses; a file whose
content cannot be parsed makes the read fail — so it is never silently
treated as an empty store — but the failure is the raw YAML parser error
propagating uncaught (only an `IOError` while opening is wrapped into
`MailSenderException`), not a typed `StoreCorrupt` error kind. -/
theorem read_creds_file_semantics (p : String) (fs : FS) :
    (fs = none → _read_creds_file false p fs = .ok (Yaml.map [])) ∧
    (fs = some .garbage →
      _read_creds_file false p fs = .error (.raw .yamlError) ∧
      ((PyErr.raw .yamlError).isMailSenderException = false)) ∧
    (∀ y : Yaml, fs = some (.parsed y) → _read_creds_file false p fs = .ok y) := by
  refine ⟨?_, ?_, ?_⟩
  · rintro rfl; rfl
  · rintro rfl; exact ⟨rfl, rfl⟩
  · rintro y rfl; rfl

/-- Witness for `read_creds_file_semantics` at a missing file. -/
theorem read_creds_file_semantics_witness :
    _read_creds_file false "creds.yml" none = .ok (Yaml.map []) :=
  (read_creds_file_semantics "creds.yml" none).1 rfl

/-- C5 counterexample: the sender "foo" has no '@'; against a perfectly
valid domain table the factory fails with the untyped `ValueError` raised by
the `(addr, domain) = sender.split('@', 2)` unpacking on line 187, not with
a typed `InvalidAddress` failure of the subsystem's error taxonomy
(`MailSenderException`). -/
theorem no_at_sender_untyped_error :
    mail_sender stubEnv "foo"
      [("base.com", Yaml.map [("protocol", Yaml.str "smtp")])] =
      .error (.raw .valueError) ∧
    (PyErr.raw .valueError).isMailSenderException = false :=
  ⟨rfl, rfl⟩

/-- C5 (amended): for every non-empty sender address whose split on '@' with
maxsplit 2 does not produce exactly two parts — in particular every address
with no '@' at all, and every address with two or more '@'s — the factory
fails, but with the untyped `ValueError` of tuple unpacking rather than a
typed error of the subsystem's taxonomy. -/
theorem invalid_address_value_error (env : ModuleEnv) (sender : String)
    (domains_conf : List (String × Yaml)) (hne : sender ≠ "")
    (hsplit : ∀ a d : String, pySplit '@' 2 sender ≠ [a, d]) :
    mail_sender env sender domains_conf = .error (.raw .valueError) ∧
    (PyErr.raw .valueError).isMailSenderException = false := by
  refine ⟨?_, rfl⟩
  unfold mail_sender
  rw [if_neg hne]
  split
  · rename_i a d heq
    exact absurd heq (hsplit a d)
  · rfl

/-- Witness for `invalid_address_value_error` at the two-'@' address
"a@b@c". -/
theorem invalid_address_value_error_witness :
    mail_sender stubEnv "a@b@c" [] = .error (.raw .valueError) ∧
    (PyErr.raw .valueError).isMailSenderException = false :=
  invalid_address_value_error stubEnv "a@b@c" [] (by decide)
    (fun a d h => by simp [pySplit, pySplitChars] at h)

/-- Reduction of `mail_sender` to `dispatchProtocol` when the sender is
non-empty, splits into exactly an address part and a domain, and the domain
maps to a truthy spec in the table. -/
theorem mail_sender_eq_dispatch (env : ModuleEnv) (sender a domain : String)
    (domains_conf : List (String × Yaml)) (spec : Yaml)
    (hne : sender ≠ "")
    (hsplit : pySplit '@' 2 sender = [a, domain])
    (hlook : alistGet domains_conf domain = some spec)
    (htr : spec.truthy = true) :
    mail_sender env sender domains_conf =
      dispatchProtocol env sender domain spec := by
  unfold mail_sender
  rw [if_neg hne, hsplit]
  dsimp only
  rw [hlook]
  dsimp only
  rw [htr]
  rfl

/-- Truthiness of a mapping built from a non-empty association list. -/
theorem truthy_map_of_ne_nil (m : List (String × Yaml)) (hm : m ≠ []) :
    (Yaml.map m).truthy = true := by
  cases m with
  | nil => exact absurd rfl hm
  | cons kv rest => rfl

/-- C7: for every domain whose spec carries a protocol string that is not
"smtp" and contains no ':' separator, the factory fails with the
`NoImplementation` error for that domain:
`MailSenderException("No implementation specified for domain ...")`. -/
theorem no_separator_no_implementation (env : ModuleEnv)
    (sender a domain p : String) (domains_conf sm : List (String × Yaml))
    (hne : sender ≠ "")
    (hsplit : pySplit '@' 2 sender = [a, domain])
    (hlook : alistGet domains_conf domain = some (.map sm))
    (hsm : sm ≠ [])
    (hproto : alistGet sm "protocol" = some (.str p))
    (hp : p ≠ "smtp")
    (hcolon : ':' ∉ p.data) :
    mail_sender env sender domains_conf =
      .error (.mailSender none
        ("No implementation specified for domain " ++ domain)) := by
  rw [mail_sender_eq_dispatch env sender a domain domains_conf (.map sm)
    hne hsplit hlook (truthy_map_of_ne_nil sm hsm)]
  simp [dispatchProtocol, hproto, hp, hcolon]

/-- Witness for `no_separator_no_implementation`: the spec's scenario, the
domain table {"bad.server": {"protocol": "nope"}} with sender
"foo@bad.server". -/
theorem no_separator_no_implementation_witness :
    mail_sender stubEnv "foo@bad.server"
      [("bad.server", Yaml.map [("protocol", Yaml.str "nope")])] =
      .error (.mailSender none
        "No implementation specified for domain bad.server") :=
  no_separator_no_implementation stubEnv "foo@bad.server" "foo" "bad.server"
    "nope" [("bad.server", Yaml.map [("protocol", Yaml.str "nope")])]
    [("protocol", Yaml.str "nope")] (by decide) rfl rfl (by simp) rfl
    (by decide) (by decide)

/-- C6: for a protocol string of the form "module:Class", a module or symbol
that cannot be resolved makes the factory fail with
`MailSenderUnsupportedException` wrapping the underlying
`ModuleNotFoundError` or `AttributeError` (the `UnsupportedProtocol` kind),
while an instantiated object that fails the `isinstance(inst, MailSender)`
capability check makes it fail with the plain `MailSenderException`
"... is not a MailSender" (the `NotASender` kind), which the dynamic-load
handler does not catch. -/
theorem dynamic_resolution_error_kinds (env : ModuleEnv)
    (sender a domain p module_ class_ : String)
    (domains_conf sm : List (String × Yaml))
    (hne : sender ≠ "")
    (hsplit : pySplit '@' 2 sender = [a, domain])
    (hlook : alistGet domains_conf domain = some (.map sm))
    (hsm : sm ≠ [])
    (hproto : alistGet sm "protocol" = some (.str p))
    (hp : p ≠ "smtp")
    (hcolon : ':' ∈ p.data)
    (hparts : pySplit ':' 1 p = [module_, class_]) :
    (env module_ class_ = .moduleNotFound →
      mail_sender env sender domains_conf =
        .error (.mailSenderUnsupported (.moduleNotFoundError module_)
          (module_ ++ ":" ++ class_ ++ " for email domain " ++ domain ++
            " unknown)"))) ∧
    (env module_ class_ = .attrNotFound →
      mail_sender env sender domains_conf =
        .error (.mailSenderUnsupported (.attributeErrorSym module_ class_)
          (module_ ++ ":" ++ class_ ++ " for email domain " ++ domain ++
            " unknown)"))) ∧
    (env module_ class_ = .inst false →
      mail_sender env sender domains_conf =
        .error (.mailSender none
          (module_ ++ ":" ++ class_ ++ " for " ++ domain ++
            " is not a MailSender"))) := by
  have hd := mail_sender_eq_dispatch env sender a domain domains_conf
    (.map sm) hne hsplit hlook (truthy_map_of_ne_nil sm hsm)
  refine ⟨fun he => ?_, fun he => ?_, fun he => ?_⟩ <;>
    rw [hd] <;>
    simp [dispatchProtocol, hproto, hp, hcolon, hparts, he]

/-- Witness for `dynamic_resolution_error_kinds`: protocol "mymod:MyCls" on
domain "d.com" in an environment where the module is not found. -/
theorem dynamic_resolution_error_kinds_witness :
    mail_sender stubEnv "foo@d.com"
      [("d.com", Yaml.map [("protocol", Yaml.str "mymod:MyCls")])] =
      .error (.mailSenderUnsupported (.moduleNotFoundError "mymod")
        "mymod:MyCls for email domain d.com unknown)") :=
  (dynamic_resolution_error_kinds stubEnv "foo@d.com" "foo" "d.com"
    "mymod:MyCls" "mymod" "MyCls"
    [("d.com", Yaml.map [("protocol", Yaml.str "mymod:MyCls")])]
    [("protocol", Yaml.str "mymod:MyCls")] (by decide) rfl rfl (by simp) rfl
    (by decide) (by decide) rfl).1 rfl

/-- C4 counterexample: the spec's scenario, domain table {"base.com": {}}
with sender "foo@base.com", does not resolve to the SMTP sender: the line
`if not domain_spec` treats the empty (falsy) spec as an unrecognized
domain, whereas the same table with protocol = "smtp" added resolves to the
built-in SMTP sender — so a spec lacking `protocol` does not always behave
like one with protocol = "smtp". -/
theorem empty_spec_counterexample :
    mail_sender stubEnv "foo@base.com" [("base.com", Yaml.map [])] =
      .error (.mailSender none "Domain base.com isn\x27t recognized") ∧
    mail_sender stubEnv "foo@base.com"
      [("base.com", Yaml.map [("protocol", Yaml.str "smtp")])] =
      .ok (.smtpSender "foo@base.com"
        (Yaml.map [("protocol", Yaml.str "smtp")])) :=
  ⟨rfl, rfl⟩

/-- C4 (amended): for every NON-empty domain specification lacking a
`protocol` field, the factory behaves as with protocol = "smtp": both the
original spec and the spec extended by `protocol = "smtp"` resolve to the
built-in SMTP sender (each passing its own spec dict through).  The empty
spec `{}` must be excluded: `if not domain_spec` treats it as an
unrecognized domain, so the spec's scenario {"base.com": {}} fails instead
of resolving. -/
theorem protocol_defaults_to_smtp (env : ModuleEnv) (sender a domain : String)
    (m : List (String × Yaml))
    (hne : sender ≠ "")
    (hsplit : pySplit '@' 2 sender = [a, domain])
    (hm : m ≠ [])
    (hp : alistGet m "protocol" = none) :
    mail_sender env sender [(domain, Yaml.map m)] =
      .ok (.smtpSender sender (.map m)) ∧
    mail_sender env sender
      [(domain, Yaml.map (m ++ [("protocol", Yaml.str "smtp")]))] =
      .ok (.smtpSender sender (.map (m ++ [("protocol", Yaml.str "smtp")]))) := by
  constructor
  · rw [mail_sender_eq_dispatch env sender a domain _ (.map m) hne hsplit
      (by simp [alistGet]) (truthy_map_of_ne_nil m hm)]
    simp [dispatchProtocol, hp]
  · rw [mail_sender_eq_dispatch env sender a domain _
      (.map (m ++ [("protocol", Yaml.str "smtp")])) hne hsplit
      (by simp [alistGet])
      (truthy_map_of_ne_nil _ (by simp))]
    simp [dispatchProtocol, alistGet_append_self m "protocol" (Yaml.str "smtp") hp]

/-- Witness for `protocol_defaults_to_smtp` at the non-empty spec
{"server": "s"} for domain "base.com". -/
theorem protocol_defaults_to_smtp_witness :
    mail_sender stubEnv "foo@base.com"
      [("base.com", Yaml.map [("server", Yaml.str "s")])] =
      .ok (.smtpSender "foo@base.com" (Yaml.map [("server", Yaml.str "s")])) ∧
    mail_sender stubEnv "foo@base.com"
      [("base.com", Yaml.map ([("server", Yaml.str "s")] ++
        [("protocol", Yaml.str "smtp")]))] =
      .ok (.smtpSender "foo@base.com"
        (Yaml.map ([("server", Yaml.str "s")] ++
          [("protocol", Yaml.str "smtp")]))) :=
  protocol_defaults_to_smtp stubEnv "foo@base.com" "foo" "base.com"
    [("server", Yaml.str "s")] (by decide) rfl (by simp) rfl

/-- Constructing a handle over a file that parses to a mapping containing
the sender: the loaded credentials are the stored record, with a falsy
record replaced by `{}`. -/
theorem mailSenderInit_found (sender p : String) (m : List (String × Yaml))
    (v : Yaml) (hv : alistGet m sender = some v) :
    mailSenderInit sender p (some (.parsed (.map m))) =
      .ok ⟨sender, p, if v.truthy then v else Yaml.map []⟩ := by
  unfold mailSenderInit _read_creds_file
  simp [hv]

/-- C1: the store update for `h.sender` re-reads the on-disk mapping under
the lock, overlays exactly that sender's key with `h.user_credentials` and
persists the result: afterwards reading that sender's credentials — through
the same handle (its `user_credentials` field is the record) or a freshly
constructed handle on the new file — returns exactly the new record, and
every other sender's record in the on-disk mapping equals what it was
immediately before the update, whatever the file contained at update time
(modifications by other handles since this handle last read included). -/
theorem update_then_read (h : MailSenderHandle) (fs : FS)
    (m rm : List (String × Yaml))
    (hread : _read_creds_file false h.user_cred_file fs = .ok (.map m))
    (hrec : h.user_credentials = .map rm) :
    (_update_creds .noFault h fs).result = .ok () ∧
    (_update_creds .noFault h fs).fs =
      some (.parsed (.map (alistSet m h.sender h.user_credentials))) ∧
    alistGet (alistSet m h.sender h.user_credentials) h.sender =
      some h.user_credentials ∧
    mailSenderInit h.sender h.user_cred_file ((_update_creds .noFault h fs).fs) =
      .ok ⟨h.sender, h.user_cred_file, h.user_credentials⟩ ∧
    (∀ s, s ≠ h.sender →
      alistGet (alistSet m h.sender h.user_credentials) s = alistGet m s) := by
  have hres : (_update_creds .noFault h fs).result = .ok () := by
    simp only [_update_creds, hread]
  have hfs : (_update_creds .noFault h fs).fs =
      some (.parsed (.map (alistSet m h.sender h.user_credentials))) := by
    simp only [_update_creds, hread]
  have hget : alistGet (alistSet m h.sender h.user_credentials) h.sender =
      some h.user_credentials := alistGet_alistSet_self m h.sender h.user_credentials
  refine ⟨hres, hfs, hget, ?_,
    fun s hs => alistGet_alistSet_ne m h.sender s h.user_credentials hs⟩
  rw [hfs, mailSenderInit_found h.sender h.user_cred_file _ h.user_credentials
    hget, hrec]
  cases rm with
  | nil => simp [Yaml.truthy]
  | cons kv rest => simp [Yaml.truthy]

/-- Witness for `update_then_read`: updating sender "me@y" with record
{"pw": "h2"} over a file holding a record for "other@x". -/
theorem update_then_read_witness :
    (_update_creds .noFault ⟨"me@y", "creds.yml", Yaml.map [("pw", Yaml.str "h2")]⟩
        (some (.parsed (Yaml.map [("other@x", Yaml.map [("k", Yaml.str "v")])])))).fs =
      some (.parsed (Yaml.map (alistSet [("other@x", Yaml.map [("k", Yaml.str "v")])]
        "me@y" (Yaml.map [("pw", Yaml.str "h2")])))) ∧
    mailSenderInit "me@y" "creds.yml"
        ((_update_creds .noFault ⟨"me@y", "creds.yml", Yaml.map [("pw", Yaml.str "h2")]⟩
          (some (.parsed (Yaml.map [("other@x", Yaml.map [("k", Yaml.str "v")])])))).fs) =
      .ok ⟨"me@y", "creds.yml", Yaml.map [("pw", Yaml.str "h2")]⟩ :=
  ⟨(update_then_read ⟨"me@y", "creds.yml", Yaml.map [("pw", Yaml.str "h2")]⟩
      (some (.parsed (Yaml.map [("other@x", Yaml.map [("k", Yaml.str "v")])])))
      [("other@x", Yaml.map [("k", Yaml.str "v")])] [("pw", Yaml.str "h2")]
      rfl rfl).2.1,
   (update_then_read ⟨"me@y", "creds.yml", Yaml.map [("pw", Yaml.str "h2")]⟩
      (some (.parsed (Yaml.map [("other@x", Yaml.map [("k", Yaml.str "v")])])))
      [("other@x", Yaml.map [("k", Yaml.str "v")])] [("pw", Yaml.str "h2")]
      rfl rfl).2.2.2.1⟩

/-- C2: when creating or writing the temporary file fails during an update,
the target credential file is unchanged (atomicity on error), the operation
fails with `MailSenderException` wrapping the I/O error (the
`StoreWriteFailed` kind), and no replace of the target is performed; in the
fault-free run the new content is fully written to `<file>.temp`, created
with owner-only mode 0o600 in the same directory, and then atomically
renamed over the target by `os.replace`. -/
theorem update_write_fault_atomic (wf : WriteFault) (h : MailSenderHandle)
    (fs : FS) (m : List (String × Yaml))
    (hread : _read_creds_file false h.user_cred_file fs = .ok (.map m)) :
    (wf ≠ .noFault →
      (_update_creds wf h fs).fs = fs ∧
      (∃ msg, (_update_creds wf h fs).result =
        .error (.mailSender (some .ioError) msg)) ∧
      (∀ src dst, FsEvent.replace src dst ∉ (_update_creds wf h fs).events)) ∧
    (wf = .noFault →
      (_update_creds wf h fs).events =
        [.openTemp (h.user_cred_file ++ ".temp") 0o600,
         .writeTemp (.map (alistSet m h.sender h.user_credentials)),
         .closeTemp,
         .replace (h.user_cred_file ++ ".temp") h.user_cred_file]) := by
  cases wf with
  | noFault =>
      refine ⟨fun hw => absurd rfl hw, fun _ => ?_⟩
      simp only [_update_creds, hread]
  | openFail =>
      refine ⟨fun _ => ⟨?_, ⟨"Can\x27t write " ++ h.user_cred_file, ?_⟩, ?_⟩,
        fun hw => by cases hw⟩ <;>
        simp [_update_creds, hread]
  | writeFail =>
      refine ⟨fun _ => ⟨?_, ⟨"Problem writing new credentials " ++
        (h.user_cred_file ++ ".temp"), ?_⟩, ?_⟩, fun hw => by cases hw⟩ <;>
        simp [_update_creds, hread]

/-- Witness for `update_write_fault_atomic`: `os.open` of the temp file
fails while updating over a missing credential file. -/
theorem update_write_fault_atomic_witness :
    (_update_creds .openFail ⟨"me@y", "creds.yml", Yaml.map []⟩ none).fs = none ∧
    (_update_creds .openFail ⟨"me@y", "creds.yml", Yaml.map []⟩ none).result =
      .error (.mailSender (some .ioError) "Can\x27t write creds.yml") :=
  ⟨((update_write_fault_atomic .openFail ⟨"me@y", "creds.yml", Yaml.map []⟩
      none [] rfl).1 (by decide)).1, rfl⟩

/-- C8: the interprocess lock `FileLock(<file>.lock)` serializes the
read-modify-write critical sections of `_update_creds` on the same file, so
a concurrent execution of two updates from independent handles is one of
the two sequential orders; this theorem shows that in either order both
senders' records are present afterwards (no lost update), and that every
file state — initial, between the updates and final — is a complete
serialized mapping written by one atomic `os.replace`, so a reader
acquiring the lock at any point observes a full pre- or post-update
document, never a mix. -/
theorem concurrent_updates_serialize (h1 h2 : MailSenderHandle) (fs : FS)
    (m : List (String × Yaml))
    (hne : h1.sender ≠ h2.sender)
    (hread : _read_creds_file false h1.user_cred_file fs = .ok (.map m)) :
    ((_update_creds .noFault h1 fs).fs =
       some (.parsed (.map (alistSet m h1.sender h1.user_credentials))) ∧
     (_update_creds .noFault h2 ((_update_creds .noFault h1 fs).fs)).fs =
       some (.parsed (.map (alistSet (alistSet m h1.sender h1.user_credentials)
         h2.sender h2.user_credentials))) ∧
     alistGet (alistSet (alistSet m h1.sender h1.user_credentials) h2.sender
       h2.user_credentials) h1.sender = some h1.user_credentials ∧
     alistGet (alistSet (alistSet m h1.sender h1.user_credentials) h2.sender
       h2.user_credentials) h2.sender = some h2.user_credentials) ∧
    ((_update_creds .noFault h2 fs).fs =
       some (.parsed (.map (alistSet m h2.sender h2.user_credentials))) ∧
     (_update_creds .noFault h1 ((_update_creds .noFault h2 fs).fs)).fs =
       some (.parsed (.map (alistSet (alistSet m h2.sender h2.user_credentials)
         h1.sender h1.user_credentials))) ∧
     alistGet (alistSet (alistSet m h2.sender h2.user_credentials) h1.sender
       h1.user_credentials) h2.sender = some h2.user_credentials ∧
     alistGet (alistSet (alistSet m h2.sender h2.user_credentials) h1.sender
       h1.user_credentials) h1.sender = some h1.user_credentials) := by
  have hread2 : _read_creds_file false h2.user_cred_file fs = .ok (.map m) :=
    (read_creds_file_path_indep h2.user_cred_file h1.user_cred_file fs).trans
      hread
  have hfs1 : (_update_creds .noFault h1 fs).fs =
      some (.parsed (.map (alistSet m h1.sender h1.user_credentials))) := by
    simp only [_update_creds, hread]
  have hfs2 : (_update_creds .noFault h2 fs).fs =
      some (.parsed (.map (alistSet m h2.sender h2.user_credentials))) := by
    simp only [_update_creds, hread2]
  refine ⟨⟨hfs1, ?_, ?_, alistGet_alistSet_self _ _ _⟩,
          ⟨hfs2, ?_, ?_, alistGet_alistSet_self _ _ _⟩⟩
  · rw [hfs1]
    simp [_update_creds, _read_creds_file]
  · rw [alistGet_alistSet_ne _ _ _ _ hne]
    exact alistGet_alistSet_self _ _ _
  · rw [hfs2]
    simp [_update_creds, _read_creds_file]
  · rw [alistGet_alistSet_ne _ _ _ _ (Ne.symm hne)]
    exact alistGet_alistSet_self _ _ _

/-- Witness for `concurrent_updates_serialize`: handles for "a@x" and "b@y"
updating over an initially missing file. -/
theorem concurrent_updates_serialize_witness :
    (_update_creds .noFault ⟨"a@x", "creds.yml", Yaml.map [("p", Yaml.str "1")]⟩
        none).fs =
      some (.parsed (Yaml.map (alistSet [] "a@x" (Yaml.map [("p", Yaml.str "1")])))) ∧
    alistGet (alistSet (alistSet [] "a@x" (Yaml.map [("p", Yaml.str "1")])) "b@y"
        (Yaml.map [("q", Yaml.str "2")])) "a@x" =
      some (Yaml.map [("p", Yaml.str "1")]) :=
  ⟨((concurrent_updates_serialize
      ⟨"a@x", "creds.yml", Yaml.map [("p", Yaml.str "1")]⟩
      ⟨"b@y", "creds.yml", Yaml.map [("q", Yaml.str "2")]⟩
      none [] (by decide) rfl).1).1,
   ((concurrent_updates_serialize
      ⟨"a@x", "creds.yml", Yaml.map [("p", Yaml.str "1")]⟩
      ⟨"b@y", "creds.yml", Yaml.map [("q", Yaml.str "2")]⟩
      none [] (by decide) rfl).1).2.2.1⟩

/-- C10: when the credential file exists but deserializes to a non-mapping
value (an empty file parses to null, for instance), `_read_creds_file`
returns that value as is rather than a mapping; the credential lookup
`.get(sender)` at handle construction then fails with an untyped
`AttributeError`, and the overlay `current_creds[self.sender] = ...` of the
update fails with an untyped `TypeError` (leaving the file unchanged) —
neither failure is an error kind of the store's typed taxonomy. -/
theorem non_mapping_value_untyped_errors (sender p : String) (y : Yaml)
    (h : MailSenderHandle) (hy : ∀ em, y ≠ Yaml.map em) :
    _read_creds_file false p (some (.parsed y)) = .ok y ∧
    mailSenderInit sender p (some (.parsed y)) = .error (.raw .attributeError) ∧
    (_update_creds .noFault h (some (.parsed y))).result =
      .error (.raw .typeError) ∧
    (_update_creds .noFault h (some (.parsed y))).fs = some (.parsed y) ∧
    (PyErr.raw .attributeError).isMailSenderException = false ∧
    (PyErr.raw .typeError).isMailSenderException = false := by
  refine ⟨rfl, ?_, ?_, ?_, rfl, rfl⟩ <;>
    cases y with
    | map entries => exact absurd rfl (hy entries)
    | null => rfl
    | bool b => rfl
    | nat n => rfl
    | str s => rfl

/-- Witness for `non_mapping_value_untyped_errors` at a file parsing to
null (the empty credential file). -/
theorem non_mapping_value_untyped_errors_witness :
    mailSenderInit "a@x" "creds.yml" (some (.parsed .null)) =
      .error (.raw .attributeError) ∧
    (_update_creds .noFault ⟨"a@x", "creds.yml", Yaml.map []⟩
        (some (.parsed .null))).result = .error (.raw .typeError) :=
  ⟨(non_mapping_value_untyped_errors "a@x" "creds.yml" .null
      ⟨"a@x", "creds.yml", Yaml.map []⟩ (fun _ hc => Yaml.noConfusion hc)).2.1,
   (non_mapping_value_untyped_errors "a@x" "creds.yml" .null
      ⟨"a@x", "creds.yml", Yaml.map []⟩
      (fun _ hc => Yaml.noConfusion hc)).2.2.1⟩
